import Mathlib

/-!
Shallow embedding of the NSmp media-playback daemon (src/main.rs) and
verification of its specification claims.

Rust strings are modelled as Lean `String`; `rdev::Key` as an inductive
type; `HashSet` values as lists used only for presence checks; the rodio
`Sink` as an explicit record; the file system / decoder as a function from
path to an optional decoded source (`none` models open or decode failure).
All the tokens the program compares are ASCII, so Rust's `to_lowercase` is
modelled by ASCII lowering.
-/

set_option maxHeartbeats 1600000

namespace NSmp

/-- The named key identities of the rdev crate used by the program in
`ModifierState::update` and `str_to_key` (all nullary rdev constructors). -/
inductive NamedKey where
  | KeyA | KeyB | KeyC | KeyD | KeyE | KeyF | KeyG | KeyH | KeyI | KeyJ
  | KeyK | KeyL | KeyM | KeyN | KeyO | KeyP | KeyQ | KeyR | KeyS | KeyT
  | KeyU | KeyV | KeyW | KeyX | KeyY | KeyZ
  | Num0 | Num1 | Num2 | Num3 | Num4 | Num5 | Num6 | Num7 | Num8 | Num9
  | F1 | F2 | F3 | F4 | F5 | F6 | F7 | F8 | F9 | F10 | F11 | F12
  | Space | Return | Tab | Backspace | Escape | Insert | Delete
  | Home | End | PageUp | PageDown
  | UpArrow | DownArrow | LeftArrow | RightArrow
  | ShiftLeft | ShiftRight | ControlLeft | ControlRight
  | Alt | AltGr | MetaLeft | MetaRight
deriving DecidableEq, Repr

/-- A key identity: either a named rdev key or `Key::Unknown(code)`. -/
inductive Key where
  | named (k : NamedKey)
  | Unknown (code : Nat)
deriving DecidableEq, Repr

/-- ASCII lowering of one character, modelling Rust `to_lowercase` on the
ASCII-only tokens the program compares. -/
def lowerChar (c : Char) : Char :=
  if 65 ≤ c.toNat ∧ c.toNat ≤ 90 then Char.ofNat (c.toNat + 32) else c

/-- Model of `s.to_lowercase()` on ASCII strings. -/
def rustLower (s : String) : String := ⟨s.data.map lowerChar⟩

/-- Rust `str::split('+')` semantics on a character list: every occurrence
of the separator splits, empty pieces are kept, the empty string yields
one empty piece. -/
def splitOnPlus : List Char → List (List Char)
  | [] => [[]]
  | c :: cs =>
    match splitOnPlus cs with
    | [] => [[]]
    | h :: t => if c = '+' then [] :: h :: t else (c :: h) :: t

/-- Model of `hotkey_str.split('+').collect()` (main.rs line 202). -/
def splitPlus (s : String) : List String := (splitOnPlus s.data).map String.mk

/-- Model of `ModifierState` (main.rs lines 59-65): four live modifier flags. -/
structure ModifierState where
  shift : Bool
  ctrl : Bool
  alt : Bool
  meta : Bool
deriving DecidableEq, Repr

/-- Model of `ModifierState::matches` (main.rs lines 78-83): exact equality between
the binding's modifier token set and the four live flags. -/
def ModifierState.matches (m : ModifierState) (requiredMods : List String) : Bool :=
  (requiredMods.contains "shift" == m.shift)
    && (requiredMods.contains "ctrl" == m.ctrl)
    && (requiredMods.contains "alt" == m.alt)
    && (requiredMods.contains "meta" == m.meta)

/-- Model of `str_to_key` (main.rs lines 222-312): fixed lookup table from a
(lowercased) token to a key identity. -/
def str_to_key (keyStr : String) : Option Key :=
  match rustLower keyStr with
  | "nextsong" | "audionext" => some (Key.Unknown 0x1008ff17)
  | "previoussong" | "audioprev" => some (Key.Unknown 0x1008ff16)
  | "playpause" | "audioplay" => some (Key.Unknown 0x1008ff14)
  | "stopcd" | "audiostop" => some (Key.Unknown 0x1008ff15)
  | "volumedown" => some (Key.Unknown 0x1008ff11)
  | "volumeup" => some (Key.Unknown 0x1008ff13)
  | "volumemute" => some (Key.Unknown 0x1008ff12)
  | "a" => some (Key.named NamedKey.KeyA)
  | "b" => some (Key.named NamedKey.KeyB)
  | "c" => some (Key.named NamedKey.KeyC)
  | "d" => some (Key.named NamedKey.KeyD)
  | "e" => some (Key.named NamedKey.KeyE)
  | "f" => some (Key.named NamedKey.KeyF)
  | "g" => some (Key.named NamedKey.KeyG)
  | "h" => some (Key.named NamedKey.KeyH)
  | "i" => some (Key.named NamedKey.KeyI)
  | "j" => some (Key.named NamedKey.KeyJ)
  | "k" => some (Key.named NamedKey.KeyK)
  | "l" => some (Key.named NamedKey.KeyL)
  | "m" => some (Key.named NamedKey.KeyM)
  | "n" => some (Key.named NamedKey.KeyN)
  | "o" => some (Key.named NamedKey.KeyO)
  | "p" => some (Key.named NamedKey.KeyP)
  | "q" => some (Key.named NamedKey.KeyQ)
  | "r" => some (Key.named NamedKey.KeyR)
  | "s" => some (Key.named NamedKey.KeyS)
  | "t" => some (Key.named NamedKey.KeyT)
  | "u" => some (Key.named NamedKey.KeyU)
  | "v" => some (Key.named NamedKey.KeyV)
  | "w" => some (Key.named NamedKey.KeyW)
  | "x" => some (Key.named NamedKey.KeyX)
  | "y" => some (Key.named NamedKey.KeyY)
  | "z" => some (Key.named NamedKey.KeyZ)
  | "0" => some (Key.named NamedKey.Num0)
  | "1" => some (Key.named NamedKey.Num1)
  | "2" => some (Key.named NamedKey.Num2)
  | "3" => some (Key.named NamedKey.Num3)
  | "4" => some (Key.named NamedKey.Num4)
  | "5" => some (Key.named NamedKey.Num5)
  | "6" => some (Key.named NamedKey.Num6)
  | "7" => some (Key.named NamedKey.Num7)
  | "8" => some (Key.named NamedKey.Num8)
  | "9" => some (Key.named NamedKey.Num9)
  | "f1" => some (Key.named NamedKey.F1)
  | "f2" => some (Key.named NamedKey.F2)
  | "f3" => some (Key.named NamedKey.F3)
  | "f4" => some (Key.named NamedKey.F4)
  | "f5" => some (Key.named NamedKey.F5)
  | "f6" => some (Key.named NamedKey.F6)
  | "f7" => some (Key.named NamedKey.F7)
  | "f8" => some (Key.named NamedKey.F8)
  | "f9" => some (Key.named NamedKey.F9)
  | "f10" => some (Key.named NamedKey.F10)
  | "f11" => some (Key.named NamedKey.F11)
  | "f12" => some (Key.named NamedKey.F12)
  | "space" => some (Key.named NamedKey.Space)
  | "enter" => some (Key.named NamedKey.Return)
  | "tab" => some (Key.named NamedKey.Tab)
  | "backspace" => some (Key.named NamedKey.Backspace)
  | "escape" => some (Key.named NamedKey.Escape)
  | "insert" => some (Key.named NamedKey.Insert)
  | "delete" => some (Key.named NamedKey.Delete)
  | "home" => some (Key.named NamedKey.Home)
  | "end" => some (Key.named NamedKey.End)
  | "pageup" => some (Key.named NamedKey.PageUp)
  | "pagedown" => some (Key.named NamedKey.PageDown)
  | "up" => some (Key.named NamedKey.UpArrow)
  | "down" => some (Key.named NamedKey.DownArrow)
  | "left" => some (Key.named NamedKey.LeftArrow)
  | "right" => some (Key.named NamedKey.RightArrow)
  | "shift" => some (Key.named NamedKey.ShiftLeft)
  | "ctrl" => some (Key.named NamedKey.ControlLeft)
  | "alt" => some (Key.named NamedKey.Alt)
  | "meta" | "super" | "win" => some (Key.named NamedKey.MetaLeft)
  | _ => none

/-- Model of `HashSet::insert` on the required-modifier set, kept as a list used
only for presence checks. -/
def insertTok (s : String) (l : List String) : List String :=
  if l.contains s then l else s :: l

/-- One iteration of the token loop in `check_hotkey` (main.rs lines
206-217): a modifier token is inserted into the required-modifier set;
any other token (already lowercased by the match) overwrites the required
key with its `str_to_key` resolution. -/
def hkStep (acc : List String × Option Key) (part : String) : List String × Option Key :=
  let p := rustLower part
  if p = "shift" then (insertTok "shift" acc.1, acc.2)
  else if p = "ctrl" then (insertTok "ctrl" acc.1, acc.2)
  else if p = "alt" then (insertTok "alt" acc.1, acc.2)
  else if p = "meta" ∨ p = "super" ∨ p = "win" then (insertTok "meta" acc.1, acc.2)
  else (acc.1, str_to_key p)

/-- Model of `check_hotkey` (main.rs lines 201-220). -/
def check_hotkey (pressedKeys : List Key) (modifiers : ModifierState)
    (hotkeyStr : String) : Bool :=
  let r := (splitPlus hotkeyStr).foldl hkStep ([], none)
  modifiers.matches r.1 &&
    (match r.2 with
     | some k => pressedKeys.contains k
     | none => false)

/-- Whether a lowercased token is one of the modifier tokens recognized by
the match in `check_hotkey`. -/
def isModTok (p : String) : Bool :=
  p == "shift" || p == "ctrl" || p == "alt" || p == "meta" || p == "super" || p == "win"

/-- The default hotkey bindings of `Config::default` (main.rs lines 43-57). -/
def defaultHotkeys : List (String × String) :=
  [("next", "XF86AudioNext"), ("prev", "XF86AudioPrev"),
   ("pause", "XF86AudioPlay"), ("stop", "XF86AudioStop")]

/-- Model of `MusicPlayer` (main.rs lines 359-363): the track list and cursor. -/
structure MusicPlayer where
  files : List String
  current_index : Nat
deriving DecidableEq, Repr

/-- The rodio `Sink` at the interface the program uses: the queue of
appended decoded sources, the paused flag and the output gain. -/
structure SinkState where
  queue : List String
  paused : Bool
  volume : ℚ
deriving DecidableEq, Repr

/-- Model of `Sink::stop`: drops everything queued. -/
def SinkState.stop (s : SinkState) : SinkState := { s with queue := [] }

/-- Model of `Sink::append`. -/
def SinkState.append (s : SinkState) (src : String) : SinkState :=
  { s with queue := s.queue ++ [src] }

/-- Model of `Sink::empty` (queue exhausted). -/
def SinkState.isEmptySink (s : SinkState) : Bool := s.queue.isEmpty

/-- The one error kind of `MusicPlayer::play`: `File::open` or
`Decoder::new` failed on the current track (an `io::Error` in the code). -/
inductive MediaError where
  | openOrDecodeFailed
deriving DecidableEq, Repr

/-- The file system and decoder: maps a path to its decoded source, or
`none` when the file cannot be opened or decoded. -/
def Fs : Type := String → Option String

/-- Model of `MusicPlayer::play` (main.rs lines 414-421): stop the sink, open and
decode the file at the cursor, append it. The cursor is in range by the
construction invariant, so the indexing `files[current_index]` is modelled
with `getD`. Returns the resulting sink and the error, if any; the stop
has already happened when the open fails. -/
def MusicPlayer.play (p : MusicPlayer) (fs : Fs) (sink : SinkState) :
    SinkState × Option MediaError :=
  let stopped := sink.stop
  match fs (p.files.getD p.current_index "") with
  | none => (stopped, some MediaError.openOrDecodeFailed)
  | some src => (stopped.append src, none)

/-- The cursor update of `MusicPlayer::next` (main.rs line 424):
`current_index ← (current_index + 1) % files.len()`. -/
def MusicPlayer.advance (p : MusicPlayer) : MusicPlayer :=
  { p with current_index := (p.current_index + 1) % p.files.length }

/-- The cursor update of `MusicPlayer::prev` (main.rs lines 429-433):
`current_index ← if current_index == 0 then len - 1 else current_index - 1`. -/
def MusicPlayer.retreat (p : MusicPlayer) : MusicPlayer :=
  { p with current_index :=
      if p.current_index = 0 then p.files.length - 1 else p.current_index - 1 }

/-- Model of `MusicPlayer::next` (main.rs lines 423-426): advance the cursor, then
load and play the new current track. -/
def MusicPlayer.next (p : MusicPlayer) (fs : Fs) (sink : SinkState) :
    MusicPlayer × SinkState × Option MediaError :=
  let p' := p.advance
  let r := p'.play fs sink
  (p', r.1, r.2)

/-- Model of `MusicPlayer::prev` (main.rs lines 428-435): retreat the cursor, then
load and play the new current track. -/
def MusicPlayer.prev (p : MusicPlayer) (fs : Fs) (sink : SinkState) :
    MusicPlayer × SinkState × Option MediaError :=
  let p' := p.retreat
  let r := p'.play fs sink
  (p', r.1, r.2)

/-- One iteration of the polling loop in `MusicPlayer::main_loop`
(main.rs lines 403-411): if the sink is empty, `self.next(&sink).unwrap()`.
`none` models the `unwrap` panicking on a `MediaError`, which aborts the
process (the loop runs on the main thread). -/
def MusicPlayer.mainLoopIter (p : MusicPlayer) (fs : Fs) (sink : SinkState) :
    Option (MusicPlayer × SinkState) :=
  if sink.isEmptySink then
    let r := p.next fs sink
    match r.2.2 with
    | some _ => none
    | none => some (r.1, r.2.1)
  else
    some (p, sink)

/-- What a `command_server` dispatch does after handling one request:
keep serving, or `process::exit(0)` (the `"stop"` arm). -/
inductive CmdEffect where
  | cont
  | exit
deriving DecidableEq, Repr

/-- The outcome of handling one IPC request in `command_server`: the
dispatcher's player, the sink, the control effect, and the bytes written
back to the connection (the code never writes a response). -/
structure CmdResult where
  player : MusicPlayer
  sink : SinkState
  effect : CmdEffect
  response : Option String
deriving DecidableEq, Repr

/-- The command dispatch of `command_server` (main.rs lines 322-351): match
on the received string; `next`/`prev` discard the play error (`let _ =`);
`pause` toggles the paused flag; `stop` exits the process; the volume arms
clamp with `min`/`max`; any other token falls through to `_ => {}`. -/
def applyCommand (fs : Fs) (cmd : String) (p : MusicPlayer) (sink : SinkState) :
    CmdResult :=
  if cmd = "next" then
    let r := p.next fs sink
    ⟨r.1, r.2.1, CmdEffect.cont, none⟩
  else if cmd = "prev" then
    let r := p.prev fs sink
    ⟨r.1, r.2.1, CmdEffect.cont, none⟩
  else if cmd = "pause" then
    if sink.paused then ⟨p, { sink with paused := false }, CmdEffect.cont, none⟩
    else ⟨p, { sink with paused := true }, CmdEffect.cont, none⟩
  else if cmd = "stop" then ⟨p, sink, CmdEffect.exit, none⟩
  else if cmd = "volume_up" then
    ⟨p, { sink with volume := min (sink.volume + 1/10) 1 }, CmdEffect.cont, none⟩
  else if cmd = "volume_down" then
    ⟨p, { sink with volume := max (sink.volume - 1/10) 0 }, CmdEffect.cont, none⟩
  else ⟨p, sink, CmdEffect.cont, none⟩

/-- The process state set up by `main` (main.rs lines 110-134): the sink is
shared between the threads through `Arc<Mutex<Sink>>`, but `command_server`
receives `player.clone()` (line 121), so the IPC dispatcher thread and the
main-loop supervisor thread each hold their own `MusicPlayer` cursor. -/
structure SystemState where
  dispatcherPlayer : MusicPlayer
  supervisorPlayer : MusicPlayer
  sink : SinkState
deriving DecidableEq, Repr

/-- Initial state: `main` hands `command_server` a clone of the player, so
both copies start
from the same player value. -/
def initSystem (p : MusicPlayer) (sink : SinkState) : SystemState :=
  ⟨p, p, sink⟩

/-- One IPC request handled by the `command_server` thread: it mutates its
own player copy and the shared sink. -/
def dispatcherStep (fs : Fs) (cmd : String) (sys : SystemState) :
    SystemState × CmdEffect :=
  let r := applyCommand fs cmd sys.dispatcherPlayer sys.sink
  (⟨r.player, sys.supervisorPlayer, r.sink⟩, r.effect)

/-- One polling iteration of the supervisor (main) thread: it mutates its
own player copy and the shared sink; `none` models the `unwrap` panic. -/
def supervisorStep (fs : Fs) (sys : SystemState) : Option SystemState :=
  match sys.supervisorPlayer.mainLoopIter fs sys.sink with
  | none => none
  | some r => some ⟨sys.dispatcherPlayer, r.1, r.2⟩

/-- A directory entry as `MusicPlayer::new` inspects it: its path, whether
it is a regular file, and `Path::extension()`. -/
structure DirEntry where
  path : String
  isFile : Bool
  ext : Option String
deriving DecidableEq, Repr

/-- The error kinds of `MusicPlayer::new` (main.rs lines 366-395). -/
inductive ConstructionError where
  | notADirectory
  | noSupportedFiles
deriving DecidableEq, Repr

/-- The fixed extension set of `MusicPlayer::new` (main.rs line 374). -/
def supportedExts : List String := ["mp3", "wav", "flac", "ogg", "aac", "m4a"]

/-- Model of `has_supported_extension` (main.rs lines 446-451): the lowercased
extension must be in the set; no extension means unsupported. -/
def has_supported_extension (ext : Option String) (extensions : List String) : Bool :=
  match ext with
  | some e => extensions.contains (rustLower e)
  | none => false

/-- Model of `MusicPlayer::new` (main.rs lines 366-395): reject a non-directory,
keep the regular files with a supported extension, fail when none remain,
otherwise start with the cursor at 0. -/
def MusicPlayer.new (isDir : Bool) (entries : List DirEntry) :
    Except ConstructionError MusicPlayer :=
  if !isDir then Except.error ConstructionError.notADirectory
  else
    let files := (entries.filter
      (fun e => e.isFile && has_supported_extension e.ext supportedExts)).map
      (fun e => e.path)
    if files.isEmpty then Except.error ConstructionError.noSupportedFiles
    else Except.ok ⟨files, 0⟩

/-- A concrete two-track playlist. -/
def twoTracks : MusicPlayer := ⟨["a.mp3", "b.mp3"], 0⟩

/-- A file system where every file opens and decodes. -/
def fsAll : Fs := fun p => some p

/-- A file system where only `a.mp3` opens and decodes. -/
def fsOnlyA : Fs := fun p => if p = "a.mp3" then some p else none

/-- An idle sink at the default volume 0.7. -/
def idleSink : SinkState := ⟨[], false, 7/10⟩


lemma advance_iter (k : Nat) (p : MusicPlayer) (h : p.current_index < p.files.length) :
    (MusicPlayer.advance^[k] p).files = p.files ∧
    (MusicPlayer.advance^[k] p).current_index = (p.current_index + k) % p.files.length := by
  induction k with
  | zero => simpa using (Nat.mod_eq_of_lt h).symm
  | succ k ih =>
    obtain ⟨hf, hi⟩ := ih
    rw [Function.iterate_succ_apply']
    refine ⟨by rw [MusicPlayer.advance]; exact hf, ?_⟩
    show ((MusicPlayer.advance^[k] p).current_index + 1) % (MusicPlayer.advance^[k] p).files.length
        = (p.current_index + (k + 1)) % p.files.length
    rw [hf, hi, Nat.mod_add_mod, Nat.add_assoc]

lemma retreat_files (p : MusicPlayer) : p.retreat.files = p.files := rfl

lemma retreat_index_mod (p : MusicPlayer) (h : p.current_index < p.files.length) :
    p.retreat.current_index = (p.current_index + (p.files.length - 1)) % p.files.length := by
  rw [MusicPlayer.retreat]
  by_cases h0 : p.current_index = 0
  · simp [h0]
  · simp [h0]
    have h1 : p.current_index + (p.files.length - 1)
        = (p.current_index - 1) + p.files.length := by omega
    rw [h1, Nat.add_mod_right, Nat.mod_eq_of_lt (by omega)]

lemma retreat_iter (k : Nat) (p : MusicPlayer) (h : p.current_index < p.files.length) :
    (MusicPlayer.retreat^[k] p).files = p.files ∧
    (MusicPlayer.retreat^[k] p).current_index
      = (p.current_index + k * (p.files.length - 1)) % p.files.length := by
  induction k with
  | zero => simpa using (Nat.mod_eq_of_lt h).symm
  | succ k ih =>
    obtain ⟨hf, hi⟩ := ih
    rw [Function.iterate_succ_apply']
    have hlt : (MusicPlayer.retreat^[k] p).current_index
        < (MusicPlayer.retreat^[k] p).files.length := by
      rw [hf, hi]; exact Nat.mod_lt _ (by omega)
    refine ⟨by rw [retreat_files]; exact hf, ?_⟩
    rw [retreat_index_mod _ hlt, hf, hi, Nat.mod_add_mod]
    congr 1
    ring

/-- Claim C4: for every non-empty track list of length N and every in-range
starting cursor, advancing N times returns the cursor to its start, and
retreating N times does too. -/
theorem cursor_cycle (p : MusicPlayer) (n : Nat) (hn : p.files.length = n) (hpos : 0 < n)
    (hi : p.current_index < n) :
    (MusicPlayer.advance^[n] p).current_index = p.current_index ∧
    (MusicPlayer.retreat^[n] p).current_index = p.current_index := by
  subst hn
  constructor
  · rw [(advance_iter _ p hi).2, Nat.add_mod_right, Nat.mod_eq_of_lt hi]
  · rw [(retreat_iter _ p hi).2, Nat.mul_comm, Nat.add_mul_mod_self_right,
      Nat.mod_eq_of_lt hi]

theorem cursor_cycle_witness :
    (MusicPlayer.advance^[3] ⟨["a.mp3", "b.wav", "c.flac"], 1⟩).current_index = 1 ∧
    (MusicPlayer.retreat^[3] ⟨["a.mp3", "b.wav", "c.flac"], 1⟩).current_index = 1 :=
  cursor_cycle ⟨["a.mp3", "b.wav", "c.flac"], 1⟩ 3 rfl (by decide) (by decide)

/-- Claim C5: advancing and then immediately retreating restores the cursor, for
any in-range starting position. -/
theorem advance_then_retreat (p : MusicPlayer) (hpos : 0 < p.files.length)
    (hi : p.current_index < p.files.length) :
    p.advance.retreat.current_index = p.current_index := by
  by_cases hN : p.current_index + 1 = p.files.length
  · have hm : (p.current_index + 1) % p.files.length = 0 := by rw [hN, Nat.mod_self]
    simp [MusicPlayer.advance, MusicPlayer.retreat, hm]
    omega
  · have hm : (p.current_index + 1) % p.files.length = p.current_index + 1 :=
      Nat.mod_eq_of_lt (by omega)
    simp [MusicPlayer.advance, MusicPlayer.retreat, hm]

theorem advance_then_retreat_witness :
    ((⟨["a.mp3", "b.mp3"], 1⟩ : MusicPlayer).advance.retreat).current_index = 1 :=
  advance_then_retreat ⟨["a.mp3", "b.mp3"], 1⟩ (by decide) (by decide)



/-- Claim C1: the spec requires one logical playback state shared by the IPC
dispatcher and the main-loop supervisor, but `main` passes `command_server`
a `clone` of `MusicPlayer`: applying the IPC command `next` advances the
dispatcher thread's cursor to 1 while the supervisor thread's cursor stays
at 0 — the mutation is not observed by the other thread. -/
theorem clone_divergence :
    ((dispatcherStep fsAll "next" (initSystem twoTracks idleSink)).1.dispatcherPlayer.current_index = 1) ∧
    ((dispatcherStep fsAll "next" (initSystem twoTracks idleSink)).1.supervisorPlayer.current_index = 0) := by
  decide

/-- Claim C2, counterexample: with tracks `[a.mp3, b.mp3]`, cursor 0, an empty
sink and a file system on which `b.mp3` fails to decode, one iteration of
the supervisor's auto-advance loop hits `self.next(&sink).unwrap()` and
panics (modelled by `none`), so a media error does crash the process for
this caller. -/
theorem supervisor_crash_on_media_error :
    MusicPlayer.mainLoopIter twoTracks fsOnlyA idleSink = none := by decide

/-- Claim C2 as amended: when load-and-play of the newly advanced track fails, the
error is reported to the caller and the cursor stays advanced; the command
dispatcher discards the error and continues, but the supervisor's
auto-advance loop unwraps it and panics the process. -/
theorem media_error_reported (p : MusicPlayer) (fs : Fs) (sink : SinkState)
    (h : (p.advance.play fs sink).2.isSome = true) :
    (p.next fs sink).1 = p.advance ∧
    (p.next fs sink).2.2.isSome = true ∧
    (applyCommand fs "next" p sink).player = p.advance ∧
    (applyCommand fs "next" p sink).effect = CmdEffect.cont ∧
    (sink.isEmptySink = true → p.mainLoopIter fs sink = none) := by
  obtain ⟨e, he⟩ := Option.isSome_iff_exists.mp h
  refine ⟨rfl, h, ?_, ?_, ?_⟩
  · simp [applyCommand, MusicPlayer.next]
  · simp [applyCommand]
  · intro hemp
    simp [MusicPlayer.mainLoopIter, hemp, MusicPlayer.next, he]

theorem media_error_reported_witness :
    (twoTracks.next fsOnlyA idleSink).1 = twoTracks.advance ∧
    (twoTracks.next fsOnlyA idleSink).2.2.isSome = true ∧
    (applyCommand fsOnlyA "next" twoTracks idleSink).player = twoTracks.advance ∧
    (applyCommand fsOnlyA "next" twoTracks idleSink).effect = CmdEffect.cont ∧
    (idleSink.isEmptySink = true → twoTracks.mainLoopIter fsOnlyA idleSink = none) :=
  media_error_reported twoTracks fsOnlyA idleSink (by decide)

/-- Claim C9: an IPC command that is none of the six recognized tokens leaves the
player and sink untouched, keeps the server serving, and writes nothing
back to the sender. -/
theorem unrecognized_noop (fs : Fs) (cmd : String) (p : MusicPlayer) (sink : SinkState)
    (h : cmd ∉ ["next", "prev", "pause", "stop", "volume_up", "volume_down"]) :
    applyCommand fs cmd p sink = ⟨p, sink, CmdEffect.cont, none⟩ := by
  simp only [List.mem_cons, not_or] at h
  obtain ⟨h1, h2, h3, h4, h5, h6, -⟩ := h
  simp [applyCommand, h1, h2, h3, h4, h5, h6]

theorem unrecognized_noop_witness :
    applyCommand fsAll "seek" twoTracks idleSink = ⟨twoTracks, idleSink, CmdEffect.cont, none⟩ :=
  unrecognized_noop fsAll "seek" twoTracks idleSink (by decide)

/-- Claim C6: `volume_up` sets the gain to `min (v + 0.1) 1` and `volume_down` to
`max (v - 0.1) 0`; two `volume_up` from 0.95 give exactly 1 and two
`volume_down` from 0.05 give exactly 0. -/
theorem volume_clamped (fs : Fs) (p : MusicPlayer) (sink : SinkState) :
    (applyCommand fs "volume_up" p sink).sink.volume = min (sink.volume + 1/10) 1 ∧
    (applyCommand fs "volume_down" p sink).sink.volume = max (sink.volume - 1/10) 0 ∧
    (let r1 := applyCommand fs "volume_up" p { sink with volume := 19/20 }
     let r2 := applyCommand fs "volume_up" r1.player r1.sink
     r2.sink.volume = 1) ∧
    (let r1 := applyCommand fs "volume_down" p { sink with volume := 1/20 }
     let r2 := applyCommand fs "volume_down" r1.player r1.sink
     r2.sink.volume = 0) := by
  refine ⟨by simp [applyCommand], by simp [applyCommand], ?_, ?_⟩
  · simp [applyCommand]
    norm_num
  · simp [applyCommand]
    norm_num



/-- Claim C3: with only ctrl active and the X key held, `ctrl+x` matches and
`ctrl+shift+x` does not — the modifier comparison is exact-set equality. -/
theorem ctrl_x_exact (pressed : List Key)
    (h : pressed.contains (Key.named NamedKey.KeyX) = true) :
    check_hotkey pressed ⟨false, true, false, false⟩ "ctrl+x" = true ∧
    check_hotkey pressed ⟨false, true, false, false⟩ "ctrl+shift+x" = false := by
  constructor
  · have hr : check_hotkey pressed ⟨false, true, false, false⟩ "ctrl+x"
        = pressed.contains (Key.named NamedKey.KeyX) := rfl
    rw [hr, h]
  · rfl

theorem ctrl_x_exact_witness :
    check_hotkey [Key.named NamedKey.KeyX] ⟨false, true, false, false⟩ "ctrl+x" = true ∧
    check_hotkey [Key.named NamedKey.KeyX] ⟨false, true, false, false⟩ "ctrl+shift+x" = false :=
  ctrl_x_exact [Key.named NamedKey.KeyX] (by decide)

lemma fold_key_none (parts : List String) (acc : List String × Option Key)
    (hacc : acc.2 = none)
    (hp : ∀ part ∈ parts, isModTok (rustLower part) = false →
      str_to_key (rustLower part) = none) :
    (parts.foldl hkStep acc).2 = none := by
  induction parts generalizing acc with
  | nil => simpa using hacc
  | cons part rest ih =>
    rw [List.foldl_cons]
    apply ih
    · have hpart := hp part (List.mem_cons_self _ _)
      rw [hkStep]
      split_ifs with c1 c2 c3 c4
      · exact hacc
      · exact hacc
      · exact hacc
      · exact hacc
      · obtain ⟨h4a, h4bc⟩ := not_or.mp c4
        obtain ⟨h4b, h4c⟩ := not_or.mp h4bc
        exact hpart (by simp [isModTok, c1, c2, c3, h4a, h4b, h4c])
    · intro q hq hmod
      exact hp q (List.mem_cons_of_mem _ hq) hmod

lemma check_hotkey_key_none (pressed : List Key) (mods : ModifierState) (s : String)
    (h : ((splitPlus s).foldl hkStep ([], none)).2 = none) :
    check_hotkey pressed mods s = false := by
  simp only [check_hotkey, h, Bool.and_false]

/-- Claim C8: a binding whose single non-modifier token does not resolve in
`str_to_key` can never match, whatever keys are held and whatever
modifiers are active; it is not a construction error. -/
theorem unresolvable_binding (hotkeyStr t : String) (pressed : List Key)
    (mods : ModifierState)
    (h1 : (splitPlus hotkeyStr).filter (fun q => !isModTok (rustLower q)) = [t])
    (h2 : str_to_key (rustLower t) = none) :
    check_hotkey pressed mods hotkeyStr = false := by
  apply check_hotkey_key_none
  apply fold_key_none _ _ rfl
  intro part hmem hmod
  have hin : part ∈ (splitPlus hotkeyStr).filter (fun q => !isModTok (rustLower q)) :=
    List.mem_filter.mpr ⟨hmem, by simp [hmod]⟩
  rw [h1] at hin
  simp at hin
  rw [hin]
  exact h2

theorem unresolvable_binding_witness :
    check_hotkey [] ⟨false, false, false, false⟩ "ctrl+xyz" = false :=
  unresolvable_binding "ctrl+xyz" "xyz" [] ⟨false, false, false, false⟩
    (by decide) (by decide)

/-- Claim C10: none of the four default binding strings resolves to a key in
`str_to_key`, so under the default configuration `check_hotkey` is false
for every binding, every held-key set and every modifier state. -/
theorem default_hotkeys_dead (cb : String × String) (hcb : cb ∈ defaultHotkeys)
    (pressed : List Key) (mods : ModifierState) :
    check_hotkey pressed mods cb.2 = false := by
  apply check_hotkey_key_none
  simp only [defaultHotkeys, List.mem_cons, List.not_mem_nil, or_false] at hcb
  rcases hcb with h | h | h | h <;> subst h <;> decide

theorem default_hotkeys_dead_witness :
    check_hotkey [Key.Unknown 0x1008ff17] ⟨false, false, false, false⟩
      ("next", "XF86AudioNext").2 = false :=
  default_hotkeys_dead ("next", "XF86AudioNext") (by decide)
    [Key.Unknown 0x1008ff17] ⟨false, false, false, false⟩

/-- C7: constructing the playlist from a directory whose entries have no
supported extension (in particular an empty directory) fails, and from a
directory with one file whose extension lowercases to `mp3` succeeds with
the cursor at 0. -/
theorem construction_cases :
    (∀ entries : List DirEntry,
      (∀ e ∈ entries, e.isFile = true →
        has_supported_extension e.ext supportedExts = false) →
      MusicPlayer.new true entries = Except.error ConstructionError.noSupportedFiles) ∧
    (∀ (name x : String), rustLower x = "mp3" →
      MusicPlayer.new true [⟨name, true, some x⟩] = Except.ok ⟨[name], 0⟩) := by
  constructor
  · intro entries h
    have hfilt : entries.filter
        (fun e => e.isFile && has_supported_extension e.ext supportedExts) = [] := by
      rw [List.filter_eq_nil_iff]
      intro e he
      cases hf : e.isFile
      · simp [hf]
      · simp [hf, h e he hf]
    simp [MusicPlayer.new, hfilt]
  · intro name x hx
    simp [MusicPlayer.new, has_supported_extension, hx, supportedExts]

theorem construction_cases_witness :
    MusicPlayer.new true [] = Except.error ConstructionError.noSupportedFiles ∧
    MusicPlayer.new true [⟨"song.MP3", true, some "MP3"⟩] = Except.ok ⟨["song.MP3"], 0⟩ :=
  ⟨construction_cases.1 [] (fun e he => absurd he (List.not_mem_nil e)),
   construction_cases.2 "song.MP3" "MP3" (by decide)⟩


end NSmp
